import Mathlib

/-!
# Verification of the NewsPortal subscription / notification / rate-limit / activation core

A shallow embedding of the `news` application: the subscription store and its
`subscribe` / `unsubscribe` operations (`news/views.py`), the author daily news
quota computations (`news/views.py`), the account-activation state machine
(`ActivationView.get` in `news/views.py`), the admin notification-dispatch
action (`PostAdmin.send_notifications_action` in `news/admin.py`) and the
ownership guard (`OwnerRequiredMixin` in `news/views.py`).

Database rows are lists of structures; Django querysets become list filters;
`timezone` instants become natural numbers (seconds); fallible operations
return explicit result values.
-/

namespace NewsPortal

/-- A user id, as the primary key of `auth.User`. -/
abbrev UserId := Nat

/-- A category id, as the primary key of `news.Category`. -/
abbrev CategoryId := Nat

/-- A post id. -/
abbrev PostId := Nat

/-- An author id (`news.Author` primary key). -/
abbrev AuthorId := Nat

/-- An instant, in seconds. -/
abbrev Time := Nat

/-- `Post.post_type`: the two-valued type field of `news.Post`
(`Post.NEWS` / `Post.ARTICLE`). -/
inductive PostType where
  | news
  | article
deriving DecidableEq, Repr

/-- A row of `auth.User`, restricted to the fields the embedded code reads:
the id, the `is_active` flag and the `is_staff` flag. -/
structure User where
  id : UserId
  is_active : Bool
  is_staff : Bool
deriving DecidableEq, Repr

/-- A row of `news.Author`: an author profile owning one user. -/
structure Author where
  id : AuthorId
  userId : UserId
deriving DecidableEq, Repr

/-- A row of `news.Post`: title, owning author, type, creation instant and the
many-to-many category set (as the list of category ids). -/
structure Post where
  id : PostId
  title : String
  authorId : AuthorId
  post_type : PostType
  created_at : Time
  categories : List CategoryId
deriving DecidableEq, Repr

/-- A row of `news.Subscription`: a (user, category) pair. -/
structure Subscription where
  userId : UserId
  categoryId : CategoryId
deriving DecidableEq, Repr

/-- The row-matching predicate `Subscription.objects.filter(user=..., category=...)`
applies. -/
def subMatches (u : UserId) (c : CategoryId) (s : Subscription) : Bool :=
  s.userId == u && s.categoryId == c

/-!
## 4.1 Subscription management (`news/views.py`)

`subscribe_to_category` runs
`Subscription.objects.get_or_create(user=request.user, category=category)`:
if a row for the pair exists it is returned with `created = False`, otherwise
a fresh row is inserted and returned with `created = True`.  Afterwards the
view surfaces a success message on `created` and an informational
"already subscribed" message otherwise.

`unsubscribe_from_category` runs
`Subscription.objects.filter(user=..., category=...).delete()[0]` and branches
the user-facing message on `deleted_count > 0`.
-/

/-- `Subscription.objects.get_or_create(user=u, category=c)` over a list-backed
store: returns the updated store, the row, and the `created` flag. -/
def get_or_create (subs : List Subscription) (u : UserId) (c : CategoryId) :
    List Subscription × Subscription × Bool :=
  match subs.find? (subMatches u c) with
  | some s => (subs, s, false)
  | none =>
      let s : Subscription := ⟨u, c⟩
      (subs ++ [s], s, true)

/-- The body of `subscribe_to_category` (views.py:61-84), observed as the
store update plus the `created` flag that the confirmation message branches
on. -/
def subscribe_to_category (subs : List Subscription) (u : UserId) (c : CategoryId) :
    List Subscription × Subscription × Bool :=
  get_or_create subs u c

/-- The body of `unsubscribe_from_category` (views.py:116-146):
`filter(user=u, category=c).delete()` returns the number of deleted rows, and
the remaining store drops every matching row. -/
def unsubscribe_from_category (subs : List Subscription) (u : UserId) (c : CategoryId) :
    List Subscription × Nat :=
  (subs.filter (fun s => !(subMatches u c s)),
   (subs.filter (subMatches u c)).length)

/-- The message branch of `unsubscribe_from_category`: `True` stands for the
"you unsubscribed" success message (taken when `deleted_count > 0`), `False`
for the "you were not subscribed" warning. -/
def unsubscribeMessageIsRemoved (deleted_count : Nat) : Bool :=
  deleted_count > 0

/-!
## 4.2 Rate limiter (author daily news cap)

`author_dashboard` (views.py:237-265) computes
`posts_today = Post.objects.filter(author=author, created_at__gte=today_start).count()`
— note: every post of the author since midnight, with no `post_type` filter —
and displays `news_limit_remaining = max(0, 3 - posts_today)`.

`NewsCreate.get_context_data` (views.py:383-396) instead displays
`news_remaining = max(0, 3 - author.get_news_count_today())`, where
`get_news_count_today` lives in `news/models.py` (not under `src/`) and is
modelled from the spec below.
-/

/-- The `posts_today` count of `author_dashboard` (views.py:249-252): every
post owned by the author with `created_at >= today_start`, regardless of its
type. -/
def author_dashboard_posts_today (posts : List Post) (a : AuthorId)
    (today_start : Time) : Nat :=
  (posts.filter (fun p => p.authorId == a && decide (today_start ≤ p.created_at))).length

/-- The `news_limit_remaining` value `author_dashboard` puts in its context
(views.py:262): `max(0, 3 - posts_today)`. -/
def news_limit_remaining (posts : List Post) (a : AuthorId) (today_start : Time) : Int :=
  max 0 (3 - (author_dashboard_posts_today posts a today_start : Int))

/-- Modelled from the spec: `Author.get_news_count_today` lives in
`news/models.py`, which is not under `src/`.  §4.2 defines it as the count of
NEWS posts owned by the author with creation timestamp ≥ today's midnight. -/
def get_news_count_today (posts : List Post) (a : AuthorId) (today_start : Time) : Nat :=
  (posts.filter (fun p =>
    p.authorId == a && p.post_type == PostType.news
      && decide (today_start ≤ p.created_at))).length

/-- The `news_remaining` value `NewsCreate.get_context_data` puts in its
context (views.py:393): `max(0, 3 - news_count)` with `news_count =
get_news_count_today`. -/
def news_remaining (posts : List Post) (a : AuthorId) (today_start : Time) : Int :=
  max 0 (3 - (get_news_count_today posts a today_start : Int))

/-- Outcome of a news-creation attempt through the quota-gated pathway. -/
inductive CreateNewsResult where
  | madePost (p : Post)
  | quotaExceeded
deriving DecidableEq, Repr

/-- Modelled from the spec: the quota gate (`NewsLimitMixin` in
`news/mixins.py`) is not under `src/`; only its attachment to `NewsCreate`
(views.py:350) is.  §4.2: the news-creation pathway consults `remaining`
before persisting; if remaining is 0 the attempt is rejected with a
`QuotaExceeded` condition rather than silently persisted; otherwise
`NewsCreate.form_valid` (views.py:362-377) persists the post with
`post_type = Post.NEWS`. -/
def create_news (posts : List Post) (a : AuthorId) (today_start now : Time)
    (pid : PostId) (title : String) (cats : List CategoryId) :
    List Post × CreateNewsResult :=
  if news_remaining posts a today_start = 0 then
    (posts, CreateNewsResult.quotaExceeded)
  else
    let p : Post := ⟨pid, title, a, PostType.news, now, cats⟩
    (posts ++ [p], CreateNewsResult.madePost p)

/-!
## 4.3 Notification dispatcher

`Post.send_notifications_to_subscribers` lives in `news/models.py`, which is
not under `src/`; `NewsCreate.form_valid` (views.py:375) and
`PostAdmin.send_notifications_action` (admin.py:241) call it.  It is modelled
from the spec.
-/

/-- One notification email, identified by its recipient and the post it is
about. -/
structure Email where
  toUser : UserId
  postId : PostId
deriving DecidableEq, Repr

/-- Modelled from the spec: the recipient resolution of
`Post.send_notifications_to_subscribers` (`news/models.py`, not under `src/`).
§4.3: resolve the set of categories attached to the post, then the set of
users subscribed to any of those categories — the union, deduplicated by
user. -/
def notification_recipients (subs : List Subscription) (p : Post) : List UserId :=
  ((subs.filter (fun s => p.categories.contains s.categoryId)).map
    Subscription.userId).dedup

/-- Modelled from the spec: `Post.send_notifications_to_subscribers`
(`news/models.py`, not under `src/`).  §4.3: one email per distinct
recipient. -/
def send_notifications_to_subscribers (subs : List Subscription) (p : Post) :
    List Email :=
  (notification_recipients subs p).map (fun u => ⟨u, p.id⟩)

/-!
## 4.5 Account activation (`ActivationView.get`, views.py:513-548)
-/

/-- A row of `news.ActivationToken`: the token string, the owning user, the
creation instant and the consumed flag. -/
structure ActivationToken where
  token : String
  userId : UserId
  created_at : Time
  activated : Bool
deriving DecidableEq, Repr

/-- Modelled from the spec: `ActivationToken.is_expired` lives in
`news/models.py`, which is not under `src/`.  §4.5: a pure function of
`now - created_at > 1 day`; the validity window is 1 day (86400 seconds)
measured from creation. -/
def ActivationToken.is_expired (tok : ActivationToken) (now : Time) : Bool :=
  decide (tok.created_at + 86400 < now)

/-- The slice of the persisted store `ActivationView.get` touches: the token
table and the user table. -/
structure AccountsState where
  tokens : List ActivationToken
  users : List User
deriving DecidableEq, Repr

/-- The four outcomes `ActivationView.get` renders (its `context['status']`
values `success`, `already_activated`, `expired`, `invalid`). -/
inductive ActivationStatus where
  | success
  | already_activated
  | expired
  | invalid
deriving DecidableEq, Repr

/-- The first store write of the success branch (views.py:530-531):
`activation_token.activated = True; activation_token.save()`. -/
def tokenSave (st : AccountsState) (tokenStr : String) : AccountsState :=
  { st with
    tokens := st.tokens.map (fun t =>
      if t.token == tokenStr then { t with activated := true } else t) }

/-- The second store write of the success branch (views.py:534-536):
`user.is_active = True; user.save()`. -/
def userSave (st : AccountsState) (uid : UserId) : AccountsState :=
  { st with
    users := st.users.map (fun u =>
      if u.id == uid then { u with is_active := true } else u) }

/-- `ActivationView.get` (views.py:516-548): look the token string up
(`DoesNotExist` → `invalid`); if expired → `expired`; else if already
consumed → `already_activated`; otherwise run the two saves in sequence
(token first, then user) and render `success`. -/
def activation_get (st : AccountsState) (tokenStr : String) (now : Time) :
    AccountsState × ActivationStatus :=
  match st.tokens.find? (fun t => t.token == tokenStr) with
  | none => (st, ActivationStatus.invalid)
  | some tok =>
      if tok.is_expired now then (st, ActivationStatus.expired)
      else if tok.activated then (st, ActivationStatus.already_activated)
      else (userSave (tokenSave st tokenStr) tok.userId, ActivationStatus.success)

/-!
## Admin notification action (`PostAdmin.send_notifications_action`,
admin.py:218-259)

The action walks the selected posts; a non-news post or a post without
categories is skipped with a warning; otherwise
`post.send_notifications_to_subscribers()` is attempted under a
`try/except` that counts the outcome, messages an error to the actor on
failure, and continues with the next post.  After the loop, a single success
summary is messaged when `success_count > 0`.  Whether an individual call
raises is outside this file's store model, so it is a parameter
(`sendOutcome`, `some e` meaning the call raised `e`).
-/

/-- A message surfaced to the triggering admin via `message_user`, one
constructor per `message_user` call site of `send_notifications_action`. -/
inductive AdminMsg where
  | warnNotNews (title : String)
  | warnNoCategories (title : String)
  | errorForPost (title : String) (err : String)
  | successSummary (n : Nat)
deriving DecidableEq, Repr

/-- The running state of the action loop: the two counters, the messages
surfaced so far and the notification emails sent so far. -/
structure ActionState where
  success_count : Nat
  error_count : Nat
  msgs : List AdminMsg
  emails : List Email
deriving DecidableEq, Repr

/-- One iteration of the `for post in queryset` loop of
`send_notifications_action` (admin.py:223-251). -/
def processPost (subs : List Subscription) (sendOutcome : PostId → Option String)
    (acc : ActionState) (p : Post) : ActionState :=
  if p.post_type != PostType.news then
    { acc with msgs := acc.msgs ++ [AdminMsg.warnNotNews p.title] }
  else if p.categories.isEmpty then
    { acc with msgs := acc.msgs ++ [AdminMsg.warnNoCategories p.title] }
  else
    match sendOutcome p.id with
    | none =>
        { acc with
          success_count := acc.success_count + 1,
          emails := acc.emails ++ send_notifications_to_subscribers subs p }
    | some e =>
        { acc with
          error_count := acc.error_count + 1,
          msgs := acc.msgs ++ [AdminMsg.errorForPost p.title e] }

/-- `send_notifications_action` (admin.py:218-257): fold the loop body over
the queryset, then message the aggregate success summary when
`success_count > 0`. -/
def send_notifications_action (queryset : List Post) (subs : List Subscription)
    (sendOutcome : PostId → Option String) : ActionState :=
  let r := queryset.foldl (processPost subs sendOutcome) ⟨0, 0, [], []⟩
  if r.success_count > 0 then
    { r with msgs := r.msgs ++ [AdminMsg.successSummary r.success_count] }
  else r

/-!
## Ownership guard (`OwnerRequiredMixin`, views.py:45-56)
-/

/-- The explanatory message `OwnerRequiredMixin.handle_no_permission` attaches
before redirecting. -/
def owner_permission_denied_message : String :=
  "Вы можете редактировать только свой собственный контент."

/-- `OwnerRequiredMixin.test_func` (views.py:49-52):
`obj.author.user == request.user or request.user.is_staff`. -/
def ownerTestFunc (postAuthor : Author) (requser : User) : Bool :=
  postAuthor.userId == requser.id || requser.is_staff

/-- How an edit/delete request ends: either the handler body ran (the object
may be mutated), or `handle_no_permission` attached an error message and
redirected to `news_list` without touching the object. -/
inductive EditOutcome where
  | proceeded
  | redirected (message : String)
deriving DecidableEq, Repr

/-- The dispatch of an edit/delete view guarded by `OwnerRequiredMixin`:
`test_func` passing lets the handler (`mutate`) run; failing routes to
`handle_no_permission` (views.py:54-56), which messages
`permission_denied_message` and redirects, leaving the post untouched. -/
def guardedMutation (postAuthor : Author) (requser : User) (post : Post)
    (mutate : Post → Post) : Post × EditOutcome :=
  if ownerTestFunc postAuthor requser then (mutate post, EditOutcome.proceeded)
  else (post, EditOutcome.redirected owner_permission_denied_message)

/-!
## Helper lemmas
-/

/-- `find?` skips a block in which nothing satisfies the predicate. -/
theorem find?_append_of_none {α : Type} (p : α → Bool) (l₁ l₂ : List α)
    (h : l₁.find? p = none) : (l₁ ++ l₂).find? p = l₂.find? p := by
  rw [List.find?_append, h, Option.none_or]

/-- The subscription row built for the pair matches the pair. -/
theorem subMatches_self (u : UserId) (c : CategoryId) :
    subMatches u c ⟨u, c⟩ = true := by
  simp [subMatches]

/-!
## Claim theorems
-/

/-- C2: subscribe is idempotent for every (user, category) pair.  If a row for
the pair already exists, `subscribe_to_category` returns that row with
`created = false` and leaves the store unchanged (it is a total function, so
it cannot raise on a duplicate).  Starting from a store with no row for the
pair, the first call reports `created = true`, the second reports
`created = false`, the second call leaves the store unchanged, and after both
calls exactly one row for the pair is persisted. -/
theorem subscribe_to_category_idempotent (subs : List Subscription)
    (u : UserId) (c : CategoryId) :
    (∀ s, subs.find? (subMatches u c) = some s →
        subscribe_to_category subs u c = (subs, s, false)) ∧
    (subs.find? (subMatches u c) = none →
        (subscribe_to_category subs u c).2.2 = true ∧
        (subscribe_to_category (subscribe_to_category subs u c).1 u c).2.2 = false ∧
        (subscribe_to_category (subscribe_to_category subs u c).1 u c).1
          = (subscribe_to_category subs u c).1 ∧
        ((subscribe_to_category subs u c).1.filter (subMatches u c)).length = 1) := by
  constructor
  · intro s hs
    simp [subscribe_to_category, get_or_create, hs]
  · intro hnone
    have hfind2 : (subs ++ [(⟨u, c⟩ : Subscription)]).find? (subMatches u c)
        = some ⟨u, c⟩ := by
      rw [find?_append_of_none _ _ _ hnone]
      simp [List.find?, subMatches_self]
    have hfirst : subscribe_to_category subs u c
        = (subs ++ [⟨u, c⟩], ⟨u, c⟩, true) := by
      simp [subscribe_to_category, get_or_create, hnone]
    refine ⟨by rw [hfirst], ?_, ?_, ?_⟩
    · rw [hfirst]
      simp [subscribe_to_category, get_or_create, hfind2]
    · rw [hfirst]
      simp [subscribe_to_category, get_or_create, hfind2]
    · rw [hfirst]
      have hnil : subs.filter (subMatches u c) = [] :=
        List.filter_eq_nil_iff.mpr (by
          intro a ha
          exact fun hpa => (List.find?_eq_none.mp hnone a ha) hpa)
      simp [List.filter_append, hnil, subMatches_self]

/-- Witness for C2 at the empty store: the first subscribe call for
(user 1, category 2) creates, the second does not, and exactly one row
remains. -/
theorem subscribe_to_category_idempotent_witness :
    (subscribe_to_category [] 1 2).2.2 = true ∧
    (subscribe_to_category (subscribe_to_category [] 1 2).1 1 2).2.2 = false ∧
    ((subscribe_to_category [] 1 2).1.filter (subMatches 1 2)).length = 1 := by
  have h := (subscribe_to_category_idempotent [] 1 2).2 rfl
  exact ⟨h.1, h.2.1, h.2.2.2⟩

/-- C9: for every (user, category) pair, `unsubscribe_from_category` returns
the number of matching rows it deleted; when no subscription exists for the
pair it returns 0 and leaves the store unchanged; after the call no matching
row remains while every non-matching row survives; and the caller's
removed-vs-not-subscribed message branch is determined purely by that count
(it reads "removed" exactly when a subscription existed). -/
theorem unsubscribe_from_category_spec (subs : List Subscription)
    (u : UserId) (c : CategoryId) :
    ((∀ s ∈ subs, subMatches u c s = false) →
        unsubscribe_from_category subs u c = (subs, 0)) ∧
    ((unsubscribe_from_category subs u c).1.filter (subMatches u c) = []) ∧
    ((unsubscribe_from_category subs u c).1.filter (fun s => !(subMatches u c s))
        = subs.filter (fun s => !(subMatches u c s))) ∧
    ((unsubscribe_from_category subs u c).2 = (subs.filter (subMatches u c)).length) ∧
    (unsubscribeMessageIsRemoved (unsubscribe_from_category subs u c).2 = true ↔
        ∃ s ∈ subs, subMatches u c s = true) := by
  refine ⟨?_, ?_, ?_, rfl, ?_⟩
  · intro hnone
    have hself : subs.filter (fun s => !(subMatches u c s)) = subs :=
      List.filter_eq_self.mpr (by intro a ha; simp [hnone a ha])
    have hnil : subs.filter (subMatches u c) = [] :=
      List.filter_eq_nil_iff.mpr (by intro a ha; simp [hnone a ha])
    simp [unsubscribe_from_category, hself, hnil]
  · rw [unsubscribe_from_category]
    rw [List.filter_filter]
    exact List.filter_eq_nil_iff.mpr (by intro a _; simp)
  · rw [unsubscribe_from_category]
    rw [List.filter_filter]
    simp [Bool.and_self]
  · rw [unsubscribe_from_category, unsubscribeMessageIsRemoved]
    simp only [decide_eq_true_eq, List.length_pos_iff_exists_mem]
    constructor
    · rintro ⟨s, hs⟩
      exact ⟨s, (List.mem_filter.mp hs).1, (List.mem_filter.mp hs).2⟩
    · rintro ⟨s, hs, hms⟩
      exact ⟨s, List.mem_filter.mpr ⟨hs, hms⟩⟩

/-- Witness for C9 at a store where user 1 is not subscribed to category 2:
the deleted count is 0, the store is unchanged, and the message branch reads
"was not subscribed". -/
theorem unsubscribe_from_category_spec_witness :
    unsubscribe_from_category [⟨1, 3⟩] 1 2 = ([⟨1, 3⟩], 0) ∧
    unsubscribeMessageIsRemoved (unsubscribe_from_category [⟨1, 3⟩] 1 2).2 = false := by
  have h := (unsubscribe_from_category_spec [⟨1, 3⟩] 1 2).1 (by decide)
  exact ⟨h, by decide⟩

/-- The concrete failing input for C1: an ARTICLE post owned by author 1,
created at instant 100 of the current day. -/
def c1Article : Post := ⟨1, "a1", 1, PostType.article, 100, []⟩

/-- C1 (failing on the code): `author_dashboard` computes its displayed
`news_limit_remaining` from `posts_today`, which counts every post of the
author since midnight with no `post_type` filter (views.py:249-252), so an
ARTICLE does count against the displayed news cap there: with one article
today the dashboard shows 2 remaining, while the claimed formula
`max(0, 3 - count_news_today)` — honoured by `NewsCreate.get_context_data`
via `get_news_count_today` — gives 3. -/
theorem author_dashboard_counts_articles :
    news_limit_remaining [c1Article] 1 0 = 2 ∧
    news_remaining [c1Article] 1 0 = 3 := by decide

/-- C3: an author who has already published 3 NEWS posts on the current day
has `remaining = 0`, and a further attempt through the quota-gated
news-creation pathway is rejected with `QuotaExceeded` while the post store
is left unchanged (no post persisted). -/
theorem create_news_quota_enforced (posts : List Post) (a : AuthorId)
    (today_start now : Time) (pid : PostId) (title : String)
    (cats : List CategoryId)
    (h : 3 ≤ get_news_count_today posts a today_start) :
    news_remaining posts a today_start = 0 ∧
    create_news posts a today_start now pid title cats
      = (posts, CreateNewsResult.quotaExceeded) := by
  have hz : news_remaining posts a today_start = 0 := by
    rw [news_remaining]
    omega
  exact ⟨hz, by rw [create_news, if_pos hz]⟩

/-- The three NEWS posts author 1 already published today, for the C3
witness. -/
def c3Posts : List Post :=
  [⟨1, "n1", 1, PostType.news, 10, []⟩, ⟨2, "n2", 1, PostType.news, 20, []⟩,
   ⟨3, "n3", 1, PostType.news, 30, []⟩]

/-- Witness for C3: after three NEWS posts today, the fourth attempt is
rejected and nothing is persisted. -/
theorem create_news_quota_enforced_witness :
    news_remaining c3Posts 1 0 = 0 ∧
    create_news c3Posts 1 0 40 4 "n4" [2] = (c3Posts, CreateNewsResult.quotaExceeded) :=
  create_news_quota_enforced c3Posts 1 0 40 4 "n4" [2] (by decide)

/-- Counting the emails addressed to one user after the one-email-per-recipient
map step. -/
theorem email_filter_count (l : List UserId) (pid : PostId) (u : UserId) :
    ((l.map (fun r => (⟨r, pid⟩ : Email))).filter (fun e => e.toUser == u)).length
      = l.count u := by
  induction l with
  | nil => rfl
  | cons x xs ih =>
      by_cases hx : x = u
      · subst hx
        simp [List.count_cons, ih]
      · simp [List.count_cons, hx, ih]

/-- A user appears among the pre-deduplication recipients exactly when some
subscription row of theirs names one of the post's categories. -/
theorem mem_recipients_base (subs : List Subscription) (p : Post) (u : UserId) :
    (u ∈ (subs.filter (fun s => p.categories.contains s.categoryId)).map
        Subscription.userId)
      ↔ ∃ s ∈ subs, s.userId = u ∧ s.categoryId ∈ p.categories := by
  simp only [List.mem_map, List.mem_filter, List.elem_iff]
  constructor
  · rintro ⟨s, ⟨hs, hc⟩, hu⟩
    exact ⟨s, hs, hu, hc⟩
  · rintro ⟨s, hs, hu, hc⟩
    exact ⟨s, ⟨hs, hc⟩, hu⟩

/-- C4: for every NEWS post with at least one category, notification dispatch
sends exactly one email to each user holding at least one subscription to one
of the post's categories, and none to anyone else — the fan-out is the union
of the per-category subscriber sets deduplicated by user, so a user subscribed
to two of the post's categories still receives exactly one email. -/
theorem notifications_one_email_per_subscriber (subs : List Subscription)
    (p : Post) (u : UserId) (_htype : p.post_type = PostType.news)
    (_hcats : p.categories ≠ []) :
    ((send_notifications_to_subscribers subs p).filter
        (fun e => e.toUser == u)).length
      = if ∃ s ∈ subs, s.userId = u ∧ s.categoryId ∈ p.categories then 1 else 0 := by
  rw [send_notifications_to_subscribers, email_filter_count,
    notification_recipients, List.count_dedup]
  by_cases h : ∃ s ∈ subs, s.userId = u ∧ s.categoryId ∈ p.categories
  · rw [if_pos ((mem_recipients_base subs p u).mpr h), if_pos h]
  · rw [if_neg (fun hm => h ((mem_recipients_base subs p u).mp hm)), if_neg h]

/-- The NEWS post tagged with categories 1 and 2 for the C4 witness. -/
def c4Post : Post := ⟨7, "n7", 1, PostType.news, 0, [1, 2]⟩

/-- Witness for C4: user 5 is subscribed to both categories of the post and
receives exactly one email. -/
theorem notifications_one_email_per_subscriber_witness :
    ((send_notifications_to_subscribers [⟨5, 1⟩, ⟨5, 2⟩] c4Post).filter
        (fun e => e.toUser == 5)).length = 1 := by
  have h := notifications_one_email_per_subscriber [⟨5, 1⟩, ⟨5, 2⟩] c4Post 5 rfl
    (by decide)
  rw [h]
  decide

/-- The token of the C5 counterexample: consumed on the day it was created,
looked up again two days later. -/
def c5Token : ActivationToken := ⟨"tok", 7, 0, true⟩

/-- The store of the C5 counterexample. -/
def c5State : AccountsState := ⟨[c5Token], [⟨7, true, false⟩]⟩

/-- C5 counterexample: `ActivationView.get` tests expiry before the
`activated` flag (views.py:522-527), so a token whose `activated` flag is
already set but whose 1-day window has passed yields `expired`, not
`already_activated` — refuting "AlreadyActivated when the matching token's
activated flag is already set" as a universal statement. -/
theorem activation_already_activated_shadowed_by_expiry :
    c5Token.activated = true ∧
    (activation_get c5State "tok" 200000).2 = ActivationStatus.expired ∧
    (activation_get c5State "tok" 200000).2 ≠ ActivationStatus.already_activated := by
  decide

/-- C5 (amended): `activation_get` returns exactly one of the four statuses
(its result type); it returns `invalid` exactly when no token matches the
string, with the store untouched; and when the matching token's `activated`
flag is set it returns `already_activated` with the store untouched —
provided the token is not also past its expiry window, since the expiry check
runs first and wins. -/
theorem activation_get_of_find_none (st : AccountsState) (tokenStr : String)
    (now : Time)
    (h : st.tokens.find? (fun t => t.token == tokenStr) = none) :
    activation_get st tokenStr now = (st, ActivationStatus.invalid) := by
  rw [activation_get, h]

theorem activation_get_of_find_some (st : AccountsState) (tokenStr : String)
    (now : Time) (tok : ActivationToken)
    (h : st.tokens.find? (fun t => t.token == tokenStr) = some tok) :
    activation_get st tokenStr now =
      (if tok.is_expired now then (st, ActivationStatus.expired)
       else if tok.activated then (st, ActivationStatus.already_activated)
       else (userSave (tokenSave st tokenStr) tok.userId, ActivationStatus.success)) := by
  rw [activation_get, h]

theorem activation_get_statuses (st : AccountsState) (tokenStr : String)
    (now : Time) :
    ((activation_get st tokenStr now).2 = ActivationStatus.success ∨
     (activation_get st tokenStr now).2 = ActivationStatus.already_activated ∨
     (activation_get st tokenStr now).2 = ActivationStatus.expired ∨
     (activation_get st tokenStr now).2 = ActivationStatus.invalid) ∧
    (st.tokens.find? (fun t => t.token == tokenStr) = none →
        activation_get st tokenStr now = (st, ActivationStatus.invalid)) ∧
    ((activation_get st tokenStr now).2 = ActivationStatus.invalid →
        st.tokens.find? (fun t => t.token == tokenStr) = none) ∧
    (∀ tok, st.tokens.find? (fun t => t.token == tokenStr) = some tok →
        tok.is_expired now = false → tok.activated = true →
        activation_get st tokenStr now = (st, ActivationStatus.already_activated)) := by
  refine ⟨?_, activation_get_of_find_none st tokenStr now, ?_, ?_⟩
  · rcases hfind : st.tokens.find? (fun t => t.token == tokenStr) with _ | tok
    · rw [activation_get_of_find_none st tokenStr now hfind]
      simp
    · rw [activation_get_of_find_some st tokenStr now tok hfind]
      by_cases hexp : tok.is_expired now
      · simp [hexp]
      · by_cases hact : tok.activated <;> simp [hexp, hact]
  · intro hinv
    rcases hfind : st.tokens.find? (fun t => t.token == tokenStr) with _ | tok
    · exact hfind
    · exfalso
      rw [activation_get_of_find_some st tokenStr now tok hfind] at hinv
      by_cases hexp : tok.is_expired now
      · simp [hexp] at hinv
      · by_cases hact : tok.activated <;> simp [hexp, hact] at hinv
  · intro tok hfind hexp hact
    rw [activation_get_of_find_some st tokenStr now tok hfind, hexp]
    simp [hact]

/-- Witness for C5 (amended): a consumed but still-valid token yields
`already_activated` and the store is untouched; an unknown string yields
`invalid`. -/
theorem activation_get_statuses_witness :
    activation_get ⟨[⟨"t5", 1, 0, true⟩], [⟨1, true, false⟩]⟩ "t5" 100
      = (⟨[⟨"t5", 1, 0, true⟩], [⟨1, true, false⟩]⟩, ActivationStatus.already_activated) ∧
    activation_get ⟨[⟨"t5", 1, 0, true⟩], [⟨1, true, false⟩]⟩ "zzz" 100
      = (⟨[⟨"t5", 1, 0, true⟩], [⟨1, true, false⟩]⟩, ActivationStatus.invalid) := by
  refine ⟨(activation_get_statuses ⟨[⟨"t5", 1, 0, true⟩], [⟨1, true, false⟩]⟩ "t5" 100).2.2.2
      ⟨"t5", 1, 0, true⟩ (by decide) (by decide) rfl,
    (activation_get_statuses ⟨[⟨"t5", 1, 0, true⟩], [⟨1, true, false⟩]⟩ "zzz" 100).2.1
      (by decide)⟩

/-- The fresh pending token of the C6 counterexample. -/
def c6Token : ActivationToken := ⟨"t6", 9, 0, false⟩

/-- The store of the C6 counterexample: one pending token, its user not yet
active. -/
def c6State : AccountsState := ⟨[c6Token], [⟨9, false, false⟩]⟩

/-- C6 counterexample: the success branch of `ActivationView.get` performs
two separate non-transactional saves — `activation_token.save()`
(views.py:530-531) and then `user.save()` (views.py:534-536).  After the first
save alone the store holds the token flag set while the user flag is still
clear, so "either both flags are flipped or neither is" does not hold of the
store the operation passes through: there is no both-or-neither guard if
execution fails between the saves. -/
theorem activation_success_not_atomic :
    activation_get c6State "t6" 100
      = (userSave (tokenSave c6State "t6") 9, ActivationStatus.success) ∧
    (tokenSave c6State "t6").tokens = [⟨"t6", 9, 0, true⟩] ∧
    (tokenSave c6State "t6").users = [⟨9, false, false⟩] := by
  decide

/-- C6 (amended): a completed successful activation of a pending, non-expired
token sets both flags — the token save runs first, then the user save, in
sequence rather than atomically: both end set in the final store, but only
because both writes ran to completion. -/
theorem activation_success_sets_both_flags (st : AccountsState)
    (tokenStr : String) (now : Time) (tok : ActivationToken)
    (hfind : st.tokens.find? (fun t => t.token == tokenStr) = some tok)
    (hexp : tok.is_expired now = false) (hact : tok.activated = false) :
    (activation_get st tokenStr now).2 = ActivationStatus.success ∧
    (∀ t ∈ (activation_get st tokenStr now).1.tokens,
        t.token = tokenStr → t.activated = true) ∧
    (∀ u ∈ (activation_get st tokenStr now).1.users,
        u.id = tok.userId → u.is_active = true) := by
  have hrun : activation_get st tokenStr now
      = (userSave (tokenSave st tokenStr) tok.userId, ActivationStatus.success) := by
    rw [activation_get_of_find_some st tokenStr now tok hfind, hexp]
    simp [hact]
  refine ⟨by rw [hrun], ?_, ?_⟩
  · intro t ht hts
    rw [hrun] at ht
    simp only [userSave, tokenSave, List.mem_map] at ht
    rcases ht with ⟨t₀, _, hmap⟩
    by_cases h0 : t₀.token == tokenStr
    · rw [if_pos h0] at hmap
      rw [← hmap]
    · rw [if_neg h0] at hmap
      exact absurd (hmap ▸ hts) (by simpa using h0)
  · intro u hu huid
    rw [hrun] at hu
    simp only [userSave, tokenSave, List.mem_map] at hu
    rcases hu with ⟨u₀, _, hmap⟩
    by_cases h0 : u₀.id == tok.userId
    · rw [if_pos h0] at hmap
      rw [← hmap]
    · rw [if_neg h0] at hmap
      exact absurd (hmap ▸ huid) (by simpa using h0)

/-- Witness for C6 (amended): activating the fresh pending token of a
one-token store ends with both the token flag and the user flag set. -/
theorem activation_success_sets_both_flags_witness :
    (activation_get ⟨[⟨"t7", 3, 0, false⟩], [⟨3, false, false⟩]⟩ "t7" 100).2
      = ActivationStatus.success ∧
    (∀ t ∈ (activation_get ⟨[⟨"t7", 3, 0, false⟩], [⟨3, false, false⟩]⟩ "t7" 100).1.tokens,
        t.token = "t7" → t.activated = true) ∧
    (∀ u ∈ (activation_get ⟨[⟨"t7", 3, 0, false⟩], [⟨3, false, false⟩]⟩ "t7" 100).1.users,
        u.id = 3 → u.is_active = true) :=
  activation_success_sets_both_flags ⟨[⟨"t7", 3, 0, false⟩], [⟨3, false, false⟩]⟩
    "t7" 100 ⟨"t7", 3, 0, false⟩ (by decide) (by decide) rfl

/-- C7: a post submitted to the admin notification action that is not NEWS is
skipped with a warning — no email is sent; a NEWS post with zero categories is
skipped with a warning and zero emails; in both cases the error counter stays
0 and the success counter stays 0, so neither case is treated as an error. -/
theorem notifications_action_guards (p : Post) (subs : List Subscription)
    (sendOutcome : PostId → Option String) :
    (p.post_type ≠ PostType.news →
        send_notifications_action [p] subs sendOutcome
          = ⟨0, 0, [AdminMsg.warnNotNews p.title], []⟩) ∧
    (p.post_type = PostType.news → p.categories = [] →
        send_notifications_action [p] subs sendOutcome
          = ⟨0, 0, [AdminMsg.warnNoCategories p.title], []⟩) := by
  constructor
  · intro hne
    simp [send_notifications_action, processPost, hne]
  · intro htype hcats
    simp [send_notifications_action, processPost, htype, hcats]

/-- Witness for C7: an ARTICLE post, and a NEWS post with no categories, each
produce only the warning — zero emails, zero errors. -/
theorem notifications_action_guards_witness :
    send_notifications_action [⟨1, "art", 1, PostType.article, 0, [2]⟩] []
        (fun _ => none)
      = ⟨0, 0, [AdminMsg.warnNotNews "art"], []⟩ ∧
    send_notifications_action [⟨2, "bare", 1, PostType.news, 0, []⟩] []
        (fun _ => none)
      = ⟨0, 0, [AdminMsg.warnNoCategories "bare"], []⟩ :=
  ⟨(notifications_action_guards ⟨1, "art", 1, PostType.article, 0, [2]⟩ []
      (fun _ => none)).1 (by decide),
   (notifications_action_guards ⟨2, "bare", 1, PostType.news, 0, []⟩ []
      (fun _ => none)).2 rfl rfl⟩

/-- A post the action actually attempts to send for: NEWS with at least one
category (the two guards of admin.py:224-238 pass). -/
def eligiblePost (p : Post) : Bool :=
  p.post_type == PostType.news && !p.categories.isEmpty

theorem processPost_success_count (subs : List Subscription)
    (out : PostId → Option String) (acc : ActionState) (p : Post) :
    (processPost subs out acc p).success_count
      = acc.success_count + (if eligiblePost p && (out p.id).isNone then 1 else 0) := by
  rw [processPost, eligiblePost]
  by_cases h1 : p.post_type = PostType.news
  · by_cases h2 : p.categories.isEmpty
    · simp [h1, h2]
    · rcases hout : out p.id with _ | e
      · simp [h1, h2, hout]
      · simp [h1, h2, hout]
  · simp [h1]

theorem processPost_error_count (subs : List Subscription)
    (out : PostId → Option String) (acc : ActionState) (p : Post) :
    (processPost subs out acc p).error_count
      = acc.error_count + (if eligiblePost p && (out p.id).isSome then 1 else 0) := by
  rw [processPost, eligiblePost]
  by_cases h1 : p.post_type = PostType.news
  · by_cases h2 : p.categories.isEmpty
    · simp [h1, h2]
    · rcases hout : out p.id with _ | e
      · simp [h1, h2, hout]
      · simp [h1, h2, hout]
  · simp [h1]

theorem processPost_msgs_mono (subs : List Subscription)
    (out : PostId → Option String) (acc : ActionState) (p : Post)
    (m : AdminMsg) (hm : m ∈ acc.msgs) : m ∈ (processPost subs out acc p).msgs := by
  rw [processPost]
  by_cases h1 : p.post_type = PostType.news
  · by_cases h2 : p.categories.isEmpty
    · simp [h1, h2]
      exact Or.inl hm
    · rcases hout : out p.id with _ | e
      · simp [h1, h2, hout]
        exact hm
      · simp [h1, h2, hout]
        exact Or.inl hm
  · simp [h1]
    exact Or.inl hm

theorem foldl_success_count (subs : List Subscription)
    (out : PostId → Option String) :
    ∀ (qs : List Post) (acc : ActionState),
    (qs.foldl (processPost subs out) acc).success_count
      = acc.success_count
        + (qs.filter (fun p => eligiblePost p && (out p.id).isNone)).length := by
  intro qs
  induction qs with
  | nil => intro acc; simp
  | cons p qs ih =>
      intro acc
      rw [List.foldl_cons, ih, processPost_success_count, List.filter_cons]
      by_cases h : eligiblePost p && (out p.id).isNone
      · simp [h]
        omega
      · simp [h]

theorem foldl_error_count (subs : List Subscription)
    (out : PostId → Option String) :
    ∀ (qs : List Post) (acc : ActionState),
    (qs.foldl (processPost subs out) acc).error_count
      = acc.error_count
        + (qs.filter (fun p => eligiblePost p && (out p.id).isSome)).length := by
  intro qs
  induction qs with
  | nil => intro acc; simp
  | cons p qs ih =>
      intro acc
      rw [List.foldl_cons, ih, processPost_error_count, List.filter_cons]
      by_cases h : eligiblePost p && (out p.id).isSome
      · simp [h]
        omega
      · simp [h]

theorem foldl_msgs_mono (subs : List Subscription)
    (out : PostId → Option String) :
    ∀ (qs : List Post) (acc : ActionState) (m : AdminMsg),
    m ∈ acc.msgs → m ∈ (qs.foldl (processPost subs out) acc).msgs := by
  intro qs
  induction qs with
  | nil => intro acc m hm; exact hm
  | cons p qs ih =>
      intro acc m hm
      exact ih _ m (processPost_msgs_mono subs out acc p m hm)

theorem foldl_error_msg (subs : List Subscription)
    (out : PostId → Option String) :
    ∀ (qs : List Post) (acc : ActionState) (p : Post), p ∈ qs →
    eligiblePost p = true → ∀ e, out p.id = some e →
    AdminMsg.errorForPost p.title e ∈ (qs.foldl (processPost subs out) acc).msgs := by
  intro qs
  induction qs with
  | nil => intro acc p hp; cases hp
  | cons q qs ih =>
      intro acc p hp helig e hout
      rcases List.mem_cons.mp hp with h | h
      · subst h
        rw [List.foldl_cons]
        apply foldl_msgs_mono
        have h1 : p.post_type = PostType.news := by
          have := (Bool.and_eq_true _ _).mp helig
          simpa using this.1
        have h2 : ¬ p.categories.isEmpty = true := by
          have := (Bool.and_eq_true _ _).mp helig
          simpa using this.2
        rw [processPost]
        simp [h1, h2, hout]
      · exact ih _ p h helig e hout

/-- C8 (amended): in `send_notifications_action` every eligible post's send is
attempted independently — the success counter ends at the number of eligible
posts whose send succeeded and the error counter at the number whose send
raised, regardless of where in the queryset the failures sit, so a failure
aborts neither the remaining sends nor the action; every failure is reported
to the triggering actor as an individual error message; and the aggregate
success count is reported back whenever it is positive.  (The aggregate
failure count is only accumulated, never messaged — see the
counterexample.) -/
theorem action_attempts_all_sends (qs : List Post) (subs : List Subscription)
    (out : PostId → Option String) :
    (send_notifications_action qs subs out).success_count
        = (qs.filter (fun p => eligiblePost p && (out p.id).isNone)).length ∧
    (send_notifications_action qs subs out).error_count
        = (qs.filter (fun p => eligiblePost p && (out p.id).isSome)).length ∧
    (∀ p ∈ qs, eligiblePost p = true → ∀ e, out p.id = some e →
        AdminMsg.errorForPost p.title e ∈ (send_notifications_action qs subs out).msgs) ∧
    (0 < (send_notifications_action qs subs out).success_count →
        AdminMsg.successSummary (send_notifications_action qs subs out).success_count
          ∈ (send_notifications_action qs subs out).msgs) := by
  rw [send_notifications_action]
  by_cases hpos : (qs.foldl (processPost subs out) ⟨0, 0, [], []⟩).success_count > 0
  · rw [if_pos hpos]
    refine ⟨?_, ?_, ?_, ?_⟩
    · show (qs.foldl (processPost subs out) ⟨0, 0, [], []⟩).success_count = _
      rw [foldl_success_count]
      simp
    · show (qs.foldl (processPost subs out) ⟨0, 0, [], []⟩).error_count = _
      rw [foldl_error_count]
      simp
    · intro p hp helig e hout
      exact List.mem_append_left _ (foldl_error_msg subs out qs _ p hp helig e hout)
    · intro _
      exact List.mem_append_right _ (by simp)
  · rw [if_neg hpos]
    refine ⟨by rw [foldl_success_count]; simp, by rw [foldl_error_count]; simp, ?_, ?_⟩
    · intro p hp helig e hout
      exact foldl_error_msg subs out qs _ p hp helig e hout
    · intro h
      exact absurd h hpos

/-- The failing post of the C8 counterexample and witness. -/
def c8FailPost : Post := ⟨1, "w1", 1, PostType.news, 0, [1]⟩

/-- The succeeding post of the C8 witness. -/
def c8OkPost : Post := ⟨2, "w2", 1, PostType.news, 0, [1]⟩

/-- The send outcome used by the C8 counterexample and witness: the send for
post 1 raises, every other send succeeds. -/
def c8Out : PostId → Option String :=
  fun pid => if pid == 1 then some "boom" else none

/-- C8 counterexample: a run in which the only send fails ends with
`success_count = 0` and `error_count = 1`, yet the messages surfaced to the
triggering actor are exactly the one per-post error — no message carries the
aggregate success count (the summary is emitted only when `success_count > 0`,
admin.py:253-257) and no message ever carries the aggregate failure count
(`error_count` is accumulated but never reported).  This refutes "aggregate
success and failure counts are reported back to the triggering actor" as
stated. -/
theorem action_aggregate_counts_not_reported :
    (send_notifications_action [c8FailPost] [] c8Out).success_count = 0 ∧
    (send_notifications_action [c8FailPost] [] c8Out).error_count = 1 ∧
    (send_notifications_action [c8FailPost] [] c8Out).msgs
      = [AdminMsg.errorForPost "w1" "boom"] := by
  decide

/-- Witness for C8 (amended): with a failing first post and a succeeding
second post, the failure does not abort the second send (`success_count = 1`),
the failure is reported individually, and the positive aggregate success count
is reported. -/
theorem action_attempts_all_sends_witness :
    (send_notifications_action [c8FailPost, c8OkPost] [] c8Out).success_count = 1 ∧
    AdminMsg.errorForPost "w1" "boom"
      ∈ (send_notifications_action [c8FailPost, c8OkPost] [] c8Out).msgs ∧
    AdminMsg.successSummary 1
      ∈ (send_notifications_action [c8FailPost, c8OkPost] [] c8Out).msgs := by
  have h := action_attempts_all_sends [c8FailPost, c8OkPost] [] c8Out
  have hs : (send_notifications_action [c8FailPost, c8OkPost] [] c8Out).success_count = 1 := by
    rw [h.1]
    decide
  refine ⟨hs, h.2.2.1 c8FailPost (by simp) (by decide) "boom" (by decide), ?_⟩
  have hsum := h.2.2.2 (by rw [hs]; decide)
  rwa [hs] at hsum

/-- The author row of the C10 counterexample: author 2 is owned by user 11. -/
def c10Author : Author := ⟨2, 11⟩

/-- The post of the C10 counterexample, owned by author 2. -/
def c10Post : Post := ⟨5, "p5", 2, PostType.news, 0, []⟩

/-- The requester of the C10 counterexample: user 12, staff, not the owner. -/
def c10Staff : User := ⟨12, true, true⟩

/-- C10 counterexample: `OwnerRequiredMixin.test_func` is
`obj.author.user == request.user or request.user.is_staff` (views.py:49-52),
so an authenticated staff user who does not own the post passes the guard and
the operation proceeds (and mutates the post) — refuting "every edit or
delete attempt by an authenticated user who is not the owner is denied". -/
theorem owner_guard_staff_bypass :
    c10Author.userId ≠ c10Staff.id ∧
    ownerTestFunc c10Author c10Staff = true ∧
    guardedMutation c10Author c10Staff c10Post (fun p => { p with title := "edited" })
      = ({ c10Post with title := "edited" }, EditOutcome.proceeded) := by
  decide

/-- C10 (amended): an authenticated requester who neither owns the post's
author nor is staff fails `test_func`; `handle_no_permission` redirects with
the explanatory ownership message, and the post is left unmutated — the
operation aborts before any mutation. -/
theorem owner_guard_denies_non_owner (postAuthor : Author) (requser : User)
    (post : Post) (mutate : Post → Post)
    (hown : postAuthor.userId ≠ requser.id) (hstaff : requser.is_staff = false) :
    ownerTestFunc postAuthor requser = false ∧
    guardedMutation postAuthor requser post mutate
      = (post, EditOutcome.redirected owner_permission_denied_message) := by
  have ht : ownerTestFunc postAuthor requser = false := by
    rw [ownerTestFunc]
    simp [hown, hstaff]
  refine ⟨ht, ?_⟩
  rw [guardedMutation, ht]
  simp

/-- Witness for C10 (amended): user 13 (not staff, not the owner) is
redirected with the ownership message and the post is untouched. -/
theorem owner_guard_denies_non_owner_witness :
    guardedMutation c10Author ⟨13, true, false⟩ c10Post (fun p => { p with title := "x" })
      = (c10Post, EditOutcome.redirected owner_permission_denied_message) :=
  (owner_guard_denies_non_owner c10Author ⟨13, true, false⟩ c10Post
    (fun p => { p with title := "x" }) (by decide) rfl).2

end NewsPortal
